import Mathlib

/-!
Shallow embedding of the three Python scripts of this repository
(`test_calculator.py`, `test_if_else.py`, `examples/simple.py`).

Console input is modelled as a list of lines; console output as a list of
output events, one per `print`/prompt.  Python floats are modelled as
rationals (the scripts only add, compare and display small values), Python
ints as integers.  `float(...)`/`int(...)` applied to an input line are
modelled by explicit parsers that fail with `none`, mirroring the uncaught
`ValueError` of the source.
-/

/-- Models Python `str.lower()` (ASCII range, which is all the scripts use). -/
def pyLower (s : String) : String :=
  ⟨s.data.map Char.toLower⟩

/-- Value of a nonempty list of decimal digit characters; `none` on any
non-digit. -/
def digitsVal? : List Char → Nat → Option Nat
  | [], acc => some acc
  | c :: rest, acc =>
      if c.isDigit then digitsVal? rest (acc * 10 + (c.toNat - 48)) else none

/-- Decimal value of a digit string; `none` when empty or containing a
non-digit. -/
def digitsToNat? (cs : List Char) : Option Nat :=
  if cs = [] then none else digitsVal? cs 0

/-- Splits a character list at its first `'.'`: the part before, and
(`some`) the part after, or `none` when no dot occurs. -/
def splitDot : List Char → List Char × Option (List Char)
  | [] => ([], none)
  | c :: rest =>
      if c = '.' then ([], some rest)
      else
        let (a, b) := splitDot rest
        (c :: a, b)

/-- Leading sign of a Python numeric literal: whether it is negative, and
the remaining characters. -/
def pySign (cs : List Char) : Bool × List Char :=
  match cs with
  | [] => (false, [])
  | c :: rest =>
      if c = '-' then (true, rest)
      else if c = '+' then (false, rest)
      else (false, c :: rest)

/-- Models Python `float(...)` on an input line, for the plain decimal
literals (optional sign, digits, optional fractional part) that the
calculator script can meaningfully receive; every other line fails, which
models the uncaught `ValueError`. -/
def pyParseFloat (s : String) : Option ℚ :=
  let (neg, body) := pySign s.data
  let sgn : ℚ := if neg then -1 else 1
  match splitDot body with
  | (ip, none) =>
      match digitsToNat? ip with
      | none => none
      | some n => some (sgn * n)
  | (ip, some fp) =>
      if ip = [] ∧ fp = [] then none
      else
        match (if ip = [] then some 0 else digitsToNat? ip),
              (if fp = [] then some 0 else digitsToNat? fp) with
        | some i, some f => some (sgn * (i + (f : ℚ) / 10 ^ fp.length))
        | _, _ => none

/-- Models Python `int(...)` on an input line: optional sign and decimal
digits; every other line fails, which models the uncaught `ValueError`. -/
def pyParseInt (s : String) : Option ℤ :=
  let (neg, body) := pySign s.data
  match digitsToNat? body with
  | none => none
  | some n => some (if neg then -(n : ℤ) else n)

/-! ## `test_calculator.py` -/

/-- Function `add(a, b)` of `test_calculator.py`. -/
def add (a b : ℚ) : ℚ := a + b

/-- One console output event of the calculator script.  Prompt strings are
printed by `input(...)` before the corresponding line is read. -/
inductive CalcLine where
  | banner
  | promptFirst
  | promptSecond
  | negReject
  | result (r : ℚ)
  | promptContinue
  | goodbye
deriving DecidableEq

/-- Renders a Python float for display; the scripts only ever display
integer-valued floats, which Python prints with a trailing `.0`
(non-integral values, which no claim exercises, are rendered as
`num/den`). -/
def pyFloatStr (r : ℚ) : String :=
  if r.den = 1 then toString r.num ++ ".0"
  else toString r.num ++ "/" ++ toString r.den

/-- The exact console text of a calculator output event. -/
def renderCalc : CalcLine → String
  | .banner => "Simple Calculator"
  | .promptFirst => "Enter first number: "
  | .promptSecond => "Enter second number: "
  | .negReject => "Negative numbers not allowed"
  | .result r => "Result: " ++ pyFloatStr r
  | .promptContinue => "Continue? (y/n): "
  | .goodbye => "Goodbye!"

/-- Outcome of running the calculator on a finite list of input lines:
normal termination, an uncaught parse error (with the offending line), or
exhaustion of the modelled input list. -/
inductive CalcResult where
  | ok (out : List CalcLine)
  | parseError (out : List CalcLine) (bad : String)
  | outOfInput (out : List CalcLine)
deriving DecidableEq

/-- Prepends already-emitted output to a run outcome. -/
def CalcResult.withOut (pre : List CalcLine) : CalcResult → CalcResult
  | .ok o => .ok (pre ++ o)
  | .parseError o bad => .parseError (pre ++ o) bad
  | .outOfInput o => .outOfInput (pre ++ o)

/-- The output emitted by a run outcome. -/
def CalcResult.out : CalcResult → List CalcLine
  | .ok o => o
  | .parseError o _ => o
  | .outOfInput o => o

/-- The `while True:` loop of `main()` in `test_calculator.py`: read two
floats, reject the pair when either is negative and `continue`, otherwise
print the sum and `break` unless the continue-response lowercases to
`"y"`. -/
def calcLoop : List String → CalcResult
  | [] => .outOfInput [.promptFirst]
  | l1 :: rest =>
      match pyParseFloat l1 with
      | none => .parseError [.promptFirst] l1
      | some a =>
          match rest with
          | [] => .outOfInput [.promptFirst, .promptSecond]
          | l2 :: rest2 =>
              match pyParseFloat l2 with
              | none => .parseError [.promptFirst, .promptSecond] l2
              | some b =>
                  if a < 0 ∨ b < 0 then
                    (calcLoop rest2).withOut
                      [.promptFirst, .promptSecond, .negReject]
                  else
                    let r := add a b
                    match rest2 with
                    | [] =>
                        .outOfInput
                          [.promptFirst, .promptSecond, .result r,
                           .promptContinue]
                    | l3 :: rest3 =>
                        if pyLower l3 ≠ "y" then
                          .ok [.promptFirst, .promptSecond, .result r,
                               .promptContinue]
                        else
                          (calcLoop rest3).withOut
                            [.promptFirst, .promptSecond, .result r,
                             .promptContinue]

/-- Function `main()` of `test_calculator.py`: the banner, the loop, and on normal
loop exit the final `"Goodbye!"`. -/
def calcMain (inputs : List String) : CalcResult :=
  match calcLoop inputs with
  | .ok o => .ok (CalcLine.banner :: o ++ [.goodbye])
  | .parseError o bad => .parseError (CalcLine.banner :: o) bad
  | .outOfInput o => .outOfInput (CalcLine.banner :: o)

/-! ## `examples/simple.py` -/

/-- Function `calculate_area(length, width)` of `examples/simple.py`. -/
def calculate_area (length width : ℚ) : ℚ :=
  let area := length * width
  area

/-- Models Python `range(start, stop)` as the list of integers it yields. -/
def pyRange (start stop : ℤ) : List ℤ :=
  (List.range (stop - start).toNat).map (fun k => start + k)

/-- The `while count < 3` loop of `examples/simple.py`: the successive
values printed as `"Count: {count}"`, starting from the given value of
`count`. -/
def countLoop (count : ℤ) : List ℤ :=
  if count < 3 then count :: countLoop (count + 1) else []
termination_by (3 - count).toNat
decreasing_by omega

/-- One console output event of `examples/simple.py`. -/
inductive SimpleLine where
  | sumIs (n : ℤ)
  | rectArea (r : ℚ)
  | promptAge
  | adult
  | minor
  | countingHeader
  | number (i : ℤ)
  | totalSum (n : ℤ)
  | count (n : ℤ)
  | done
deriving DecidableEq

/-- Outcome of running `examples/simple.py`: normal termination, or an
uncaught parse error on the one line read from standard input. -/
inductive SimpleResult where
  | ok (out : List SimpleLine)
  | parseError (out : List SimpleLine) (bad : String)
deriving DecidableEq

/-- The top-level statements of `examples/simple.py`, run on the single
console input line (`age`). -/
def simpleRun (ageLine : String) : SimpleResult :=
  let x : ℤ := 5
  let y : ℤ := 10
  let result := x + y
  let rectangle_area := calculate_area 8 6
  let pre : List SimpleLine :=
    [.sumIs result, .rectArea rectangle_area, .promptAge]
  match pyParseInt ageLine with
  | none => .parseError pre ageLine
  | some age =>
      let ageMsg : SimpleLine := if age ≥ 18 then .adult else .minor
      let numbers : List ℤ := [1, 2, 3, 4, 5]
      let total := numbers.foldl (· + ·) 0
      .ok (pre ++ [ageMsg, .countingHeader]
        ++ (pyRange 1 6).map .number
        ++ [.totalSum total]
        ++ (countLoop 0).map .count
        ++ [.done])

/-- The expected full output of `examples/simple.py` on the input line
`"20"`, used as a concrete instance. -/
def simpleRunOut20 : List SimpleLine :=
  [.sumIs 15, .rectArea 48, .promptAge, .adult, .countingHeader,
   .number 1, .number 2, .number 3, .number 4, .number 5, .totalSum 15,
   .count 0, .count 1, .count 2, .done]

/-! ## `test_if_else.py` -/

/-- One console output event of `test_if_else.py`. -/
inductive IfElseLine where
  | largeNumber
  | mediumNumber
  | smallPositive
  | zeroOrNeg
  | even
  | odd
  | value (n : ℤ)
  | noneLine
deriving DecidableEq

/-- A Python value as printed at top level by this script: an integer, or
`None` (the return value of a function without a `return` statement). -/
inductive PyVal where
  | int (n : ℤ)
  | none
deriving DecidableEq

/-- Function `test_if_else(x)` of `test_if_else.py`: the lines it prints and the
value it returns. -/
def test_if_else (x : ℤ) : List IfElseLine × ℤ :=
  if x > 10 then ([.largeNumber], x * 2)
  else if x > 5 then ([.mediumNumber], x + 5)
  else if x > 0 then ([.smallPositive], x + 1)
  else ([.zeroOrNeg], 0)

/-- Function `simple_if_else(n)` of `test_if_else.py`: the line it prints, and its
return value, which is Python `None` since the function has no `return`. -/
def simple_if_else (n : ℤ) : List IfElseLine × PyVal :=
  (if n % 2 = 0 then [.even] else [.odd], .none)

/-- The console line `print(v)` produces for a value `v`. -/
def printVal : PyVal → IfElseLine
  | .int n => .value n
  | .none => .noneLine

/-- The top-level statements of `test_if_else.py`: the six `print(...)`
calls, each emitting the lines printed inside the call followed by the
printed return value. -/
def ifElseScript : List IfElseLine :=
  let c1 := test_if_else 15
  let c2 := test_if_else 7
  let c3 := test_if_else 3
  let c4 := test_if_else (-1)
  let s1 := simple_if_else 4
  let s2 := simple_if_else 5
  c1.1 ++ [printVal (.int c1.2)]
    ++ c2.1 ++ [printVal (.int c2.2)]
    ++ c3.1 ++ [printVal (.int c3.2)]
    ++ c4.1 ++ [printVal (.int c4.2)]
    ++ s1.1 ++ [printVal s1.2]
    ++ s2.1 ++ [printVal s2.2]

/-! ## Helper lemmas -/

theorem countLoop_zero : countLoop 0 = [0, 1, 2] := by
  rw [countLoop]
  norm_num
  rw [countLoop]
  norm_num
  rw [countLoop]
  norm_num
  rw [countLoop]
  norm_num

/-- Claim C2: `test_if_else` selects exactly one of four mutually exclusive
bands by strict comparisons in priority order — `x > 10` gives
`"Large number"` and `2x`; else `x > 5` gives `"Medium number"` and
`x + 5`; else `x > 0` gives `"Small positive number"` and `x + 1`; else
`"Zero or negative"` and `0` — with `test_if_else 15 = 30`,
`test_if_else 7 = 12`, `test_if_else 3 = 4`, `test_if_else (-1) = 0`, and
the boundary `test_if_else 10 = 15` in the medium band, not the large
band. -/
theorem claim_C2 :
    (∀ x : ℤ,
      (x > 10 → test_if_else x = ([.largeNumber], x * 2)) ∧
      (x ≤ 10 → x > 5 → test_if_else x = ([.mediumNumber], x + 5)) ∧
      (x ≤ 5 → x > 0 → test_if_else x = ([.smallPositive], x + 1)) ∧
      (x ≤ 0 → test_if_else x = ([.zeroOrNeg], 0))) ∧
    test_if_else 15 = ([.largeNumber], 30) ∧
    test_if_else 7 = ([.mediumNumber], 12) ∧
    test_if_else 3 = ([.smallPositive], 4) ∧
    test_if_else (-1) = ([.zeroOrNeg], 0) ∧
    test_if_else 10 = ([.mediumNumber], 15) := by
  refine ⟨fun x => ⟨fun h => ?_, fun h1 h2 => ?_, fun h1 h2 => ?_,
    fun h => ?_⟩, by decide, by decide, by decide, by decide, by decide⟩ <;>
    · unfold test_if_else
      split_ifs <;> first | rfl | omega

/-- Claim C2 witness: the large band at the concrete input `11`. -/
theorem claim_C2_witness :
    (11 : ℤ) > 10 ∧ test_if_else 11 = ([.largeNumber], 11 * 2) :=
  ⟨by decide, (claim_C2.1 11).1 (by decide)⟩

/-- Claim C7: `calculate_area length width = length * width` for all
numeric inputs, including zero and negative values, with no validation
and no error conditions. -/
theorem claim_C7 :
    ∀ length width : ℚ, calculate_area length width = length * width :=
  fun _ _ => rfl

/-- Claim C8: the while-counter loop starting at `count = 0` with bound 3
terminates, printing exactly `Count: 0`, `Count: 1`, `Count: 2` in order —
never a count of 3 — and then prints `Done!`. -/
theorem claim_C8 :
    (countLoop 0).map SimpleLine.count ++ [SimpleLine.done] =
      [.count 0, .count 1, .count 2, .done] ∧
    (3 : ℤ) ∉ countLoop 0 := by
  rw [countLoop_zero]
  exact ⟨rfl, by decide⟩

/-- Claim C9: `test_if_else` always returns a nonnegative value, the value
is `0` exactly when `x ≤ 0`, and every strictly positive `x` yields a
strictly positive result. -/
theorem claim_C9 :
    ∀ x : ℤ, 0 ≤ (test_if_else x).2 ∧
      ((test_if_else x).2 = 0 ↔ x ≤ 0) ∧
      (0 < x → 0 < (test_if_else x).2) := by
  intro x
  unfold test_if_else
  split_ifs <;> simp <;> omega

/-- Claim C9 witness: the strict positivity conjunct at the concrete
input `5`. -/
theorem claim_C9_witness : (0 : ℤ) < 5 ∧ 0 < (test_if_else 5).2 :=
  ⟨by decide, (claim_C9 5).2.2 (by decide)⟩

/-- Claim C10: `simple_if_else` returns `None` for every `n`, so each
top-level `print(simple_if_else(...))` emits an extra `None` output line
immediately after the `Even` or `Odd` line. -/
theorem claim_C10 :
    (∀ n : ℤ, (simple_if_else n).2 = PyVal.none) ∧
    ifElseScript =
      [.largeNumber, .value 30, .mediumNumber, .value 12,
       .smallPositive, .value 4, .zeroOrNeg, .value 0,
       .even, .noneLine, .odd, .noneLine] :=
  ⟨fun _ => rfl, by decide⟩

theorem calcMain_34n : calcMain ["3", "4", "n"] =
    .ok [.banner, .promptFirst, .promptSecond, .result 7, .promptContinue,
         .goodbye] := by
  simp +decide [calcMain, calcLoop, pyParseFloat, pySign, splitDot,
    digitsToNat?, digitsVal?, pyLower, add, CalcResult.withOut]
  norm_num

/-- Claim C5: running the calculator on the input sequence `3`, `4`, `"n"`
produces output that includes `Result: 7.0` followed by `Goodbye!`, and the
loop body executes exactly once (the full output holds exactly one result
line and one continue prompt). -/
theorem claim_C5 :
    calcMain ["3", "4", "n"] =
      .ok [.banner, .promptFirst, .promptSecond, .result 7, .promptContinue,
           .goodbye] ∧
    (calcMain ["3", "4", "n"]).out.map renderCalc =
      ["Simple Calculator", "Enter first number: ", "Enter second number: ",
       "Result: 7.0", "Continue? (y/n): ", "Goodbye!"] := by
  refine ⟨calcMain_34n, ?_⟩
  rw [calcMain_34n]
  decide

/-- Claim C6: for every integer input `i` read by the age check, the script
prints `You are an adult` if and only if `i ≥ 18`, and `You are a minor`
if and only if `i < 18`. -/
theorem claim_C6 :
    ∀ line i out, pyParseInt line = some i → simpleRun line = .ok out →
      ((SimpleLine.adult ∈ out ↔ 18 ≤ i) ∧
       (SimpleLine.minor ∈ out ↔ i < 18)) := by
  intro line i out hp hr
  simp only [simpleRun, hp] at hr
  injection hr with h
  subst h
  rcases le_or_lt 18 i with h | h
  · simp +decide [ge_iff_le, h, h.not_lt, pyRange, countLoop_zero]
  · simp +decide [ge_iff_le, h, h.not_le, pyRange, countLoop_zero]

/-- Claim C6 witness: the adult branch at the concrete input line `"20"`. -/
theorem claim_C6_witness :
    pyParseInt "20" = some 20 ∧
    ((SimpleLine.adult ∈ simpleRunOut20 ↔ 18 ≤ (20 : ℤ)) ∧
     (SimpleLine.minor ∈ simpleRunOut20 ↔ (20 : ℤ) < 18)) :=
  ⟨by decide,
   claim_C6 "20" 20 simpleRunOut20 (by decide)
     (by simp +decide [simpleRun, pyParseInt, pySign, digitsToNat?,
           digitsVal?, pyRange, countLoop_zero, calculate_area,
           simpleRunOut20]
         norm_num)⟩

theorem CalcResult.out_withOut (pre : List CalcLine) (r : CalcResult) :
    (r.withOut pre).out = pre ++ r.out := by
  cases r <;> rfl

/-- Claim C3: on each calculator iteration with parsed inputs `a` and `b`,
the pair is rejected if and only if `a < 0` or `b < 0`; on rejection the
program prints `Negative numbers not allowed`, performs no addition and
prints no result line for this pair, and re-enters the prompting loop with
no retry limit; otherwise it prints `Result: {a + b}`. -/
theorem claim_C3 :
    ∀ l1 l2 rest a b, pyParseFloat l1 = some a → pyParseFloat l2 = some b →
      ((a < 0 ∨ b < 0) →
        calcLoop (l1 :: l2 :: rest) =
          (calcLoop rest).withOut [.promptFirst, .promptSecond, .negReject]) ∧
      (¬(a < 0 ∨ b < 0) →
        ∃ k, (calcLoop (l1 :: l2 :: rest)).out =
          [.promptFirst, .promptSecond, .result (add a b), .promptContinue]
            ++ k) := by
  intro l1 l2 rest a b h1 h2
  constructor
  · intro hneg
    simp only [calcLoop, h1, h2]
    rw [if_pos hneg]
  · intro hpos
    cases rest with
    | nil =>
        simp only [calcLoop, h1, h2]
        rw [if_neg hpos]
        exact ⟨[], rfl⟩
    | cons l3 rest3 =>
        simp only [calcLoop, h1, h2]
        rw [if_neg hpos]
        by_cases hy : pyLower l3 ≠ "y"
        · rw [if_pos hy]
          exact ⟨[], rfl⟩
        · rw [if_neg hy]
          exact ⟨(calcLoop rest3).out,
            by rw [CalcResult.out_withOut]⟩

/-- Claim C3 witness: the non-rejected pair `(3, 4)` at concrete input
lines. -/
theorem claim_C3_witness :
    (¬((3 : ℚ) < 0 ∨ (4 : ℚ) < 0)) ∧
    ∃ k, (calcLoop ["3", "4"]).out =
      [.promptFirst, .promptSecond, .result (add 3 4), .promptContinue]
        ++ k :=
  ⟨by norm_num,
   (claim_C3 "3" "4" [] 3 4
       (by simp +decide [pyParseFloat, pySign, splitDot, digitsToNat?,
             digitsVal?])
       (by simp +decide [pyParseFloat, pySign, splitDot, digitsToNat?,
             digitsVal?])).2
     (by norm_num)⟩

/-- Claim C1 counterexample: the claim asserts that the empty
continue-response causes another iteration, but on inputs
`["1", "2", ""]` the empty response makes the loop exit and print
`Goodbye!` (because `"".lower() != "y"`), instead of iterating and
prompting again. -/
theorem claim_C1_counterexample :
    calcMain ["1", "2", ""] =
      .ok [.banner, .promptFirst, .promptSecond, .result 3, .promptContinue,
           .goodbye] ∧
    pyLower "" ≠ "y" := by
  constructor
  · simp +decide [calcMain, calcLoop, pyParseFloat, pySign, splitDot,
      digitsToNat?, digitsVal?, pyLower, add, CalcResult.withOut]
    norm_num
  · decide

/-- Claim C1 (amended): after a result is printed the program prompts
`Continue? (y/n): `; the loop exits (reaching `Goodbye!`) exactly when the
response is not equal to `"y"` case-insensitively, while any response equal
to `"y"` case-insensitively causes another iteration; in particular the
empty response exits. -/
theorem claim_C1 :
    ∀ l1 l2 l3 rest a b,
      pyParseFloat l1 = some a → pyParseFloat l2 = some b →
      ¬(a < 0 ∨ b < 0) →
      (pyLower l3 ≠ "y" →
        calcMain (l1 :: l2 :: l3 :: rest) =
          .ok [.banner, .promptFirst, .promptSecond, .result (add a b),
               .promptContinue, .goodbye]) ∧
      (pyLower l3 = "y" →
        calcLoop (l1 :: l2 :: l3 :: rest) =
          (calcLoop rest).withOut
            [.promptFirst, .promptSecond, .result (add a b),
             .promptContinue]) := by
  intro l1 l2 l3 rest a b h1 h2 hpos
  constructor
  · intro hy
    unfold calcMain
    simp only [calcLoop, h1, h2]
    rw [if_neg hpos, if_pos hy]
    rfl
  · intro hy
    simp only [calcLoop, h1, h2]
    rw [if_neg hpos, if_neg (by simp [hy])]

/-- Claim C1 witness: the exiting response `"N"` (case-insensitively not
`"y"`) at concrete input lines. -/
theorem claim_C1_witness :
    pyLower "N" ≠ "y" ∧
    calcMain ["1", "2", "N"] =
      .ok [.banner, .promptFirst, .promptSecond, .result (add 1 2),
           .promptContinue, .goodbye] :=
  ⟨by decide,
   (claim_C1 "1" "2" "N" [] 1 2
       (by simp +decide [pyParseFloat, pySign, splitDot, digitsToNat?,
             digitsVal?])
       (by simp +decide [pyParseFloat, pySign, splitDot, digitsToNat?,
             digitsVal?])
       (by norm_num)).1
     (by decide)⟩

theorem calcLoop_parseError :
    ∀ inputs out bad, calcLoop inputs = .parseError out bad →
      pyParseFloat bad = none ∧ bad ∈ inputs ∧ CalcLine.goodbye ∉ out := by
  intro inputs
  induction inputs using calcLoop.induct with
  | case1 =>
      intro out bad h
      simp [calcLoop] at h
  | case2 l1 rest h1 =>
      intro out bad h
      simp only [calcLoop, h1, CalcResult.parseError.injEq] at h
      obtain ⟨hout, hbad⟩ := h
      subst hout
      subst hbad
      exact ⟨h1, by simp, by decide⟩
  | case3 l1 b h1 =>
      intro out bad h
      simp [calcLoop, h1] at h
  | case4 l1 b h1 l2 rest h2 =>
      intro out bad h
      simp only [calcLoop, h1, h2, CalcResult.parseError.injEq] at h
      obtain ⟨hout, hbad⟩ := h
      subst hout
      subst hbad
      exact ⟨h2, by simp, by decide⟩
  | case5 l1 b h1 l2 rest b2 h2 hneg ih =>
      intro out bad h
      simp only [calcLoop, h1, h2] at h
      rw [if_pos hneg] at h
      cases e : calcLoop rest with
      | ok o =>
          rw [e] at h
          simp [CalcResult.withOut] at h
      | parseError o b' =>
          rw [e] at h
          simp only [CalcResult.withOut, CalcResult.parseError.injEq] at h
          obtain ⟨hout, hbad⟩ := h
          obtain ⟨hn, hm, hg⟩ := ih o b' e
          subst hbad
          subst hout
          refine ⟨hn, by simp [hm], ?_⟩
          simp [hg]
      | outOfInput o =>
          rw [e] at h
          simp [CalcResult.withOut] at h
  | case6 l1 b h1 l2 b2 h2 hneg =>
      intro out bad h
      simp only [calcLoop, h1, h2] at h
      rw [if_neg hneg] at h
      simp at h
  | case7 l1 b h1 l2 b2 h2 hneg l3 rest hy =>
      intro out bad h
      simp only [calcLoop, h1, h2] at h
      rw [if_neg hneg, if_pos hy] at h
      simp at h
  | case8 l1 b h1 l2 b2 h2 hneg l3 rest hy ih =>
      intro out bad h
      simp only [calcLoop, h1, h2] at h
      rw [if_neg hneg, if_neg hy] at h
      cases e : calcLoop rest with
      | ok o =>
          rw [e] at h
          simp [CalcResult.withOut] at h
      | parseError o b' =>
          rw [e] at h
          simp only [CalcResult.withOut, CalcResult.parseError.injEq] at h
          obtain ⟨hout, hbad⟩ := h
          obtain ⟨hn, hm, hg⟩ := ih o b' e
          subst hbad
          subst hout
          refine ⟨hn, by simp [hm], ?_⟩
          simp [hg]
      | outOfInput o =>
          rw [e] at h
          simp [CalcResult.withOut] at h

/-- Claim C4: the only failure path in any of the three scripts is a parse
failure of console input (integer for the age check, float for the two
calculator numbers); in every such case the error is unhandled: it
propagates out and terminates the script with no retry, no recovery, and
no custom error message (the failed run stops at the offending line; the
age script emits exactly the output preceding the read, and the calculator
never reaches `Goodbye!`). -/
theorem claim_C4 :
    (∀ line out bad, simpleRun line = .parseError out bad →
       bad = line ∧ pyParseInt line = none ∧
       out = [.sumIs 15, .rectArea 48, .promptAge]) ∧
    (∀ line, pyParseInt line = none →
       simpleRun line = .parseError [.sumIs 15, .rectArea 48, .promptAge]
         line) ∧
    (∀ inputs out bad, calcMain inputs = .parseError out bad →
       pyParseFloat bad = none ∧ bad ∈ inputs ∧ CalcLine.goodbye ∉ out) ∧
    (∀ inputs out bad, (∀ l ∈ inputs, (pyParseFloat l).isSome) →
       calcMain inputs ≠ .parseError out bad) := by
  refine ⟨?_, ?_, ?_, ?_⟩
  · intro line out bad h
    cases hp : pyParseInt line with
    | some age => simp [simpleRun, hp] at h
    | none =>
        simp only [simpleRun, hp, SimpleResult.parseError.injEq] at h
        obtain ⟨hout, hbad⟩ := h
        subst hout
        subst hbad
        refine ⟨rfl, rfl, ?_⟩
        norm_num [calculate_area]
  · intro line hp
    simp only [simpleRun, hp, SimpleResult.parseError.injEq]
    norm_num [calculate_area]
  · intro inputs out bad h
    unfold calcMain at h
    cases e : calcLoop inputs with
    | ok o =>
        rw [e] at h
        simp at h
    | parseError o b' =>
        rw [e] at h
        simp only [CalcResult.parseError.injEq] at h
        obtain ⟨hout, hbad⟩ := h
        obtain ⟨hn, hm, hg⟩ := calcLoop_parseError inputs o b' e
        subst hbad
        subst hout
        refine ⟨hn, hm, ?_⟩
        simp [hg]
    | outOfInput o =>
        rw [e] at h
        simp at h
  · intro inputs out bad hall h
    unfold calcMain at h
    cases e : calcLoop inputs with
    | ok o =>
        rw [e] at h
        simp at h
    | parseError o b' =>
        obtain ⟨hn, hm, _⟩ := calcLoop_parseError inputs o b' e
        have hs := hall b' hm
        rw [hn] at hs
        simp at hs
    | outOfInput o =>
        rw [e] at h
        simp at h

/-- Claim C4 witness: the age script aborts at the unparsable input line
`"abc"`, emitting exactly the output preceding the read. -/
theorem claim_C4_witness :
    pyParseInt "abc" = none ∧
    simpleRun "abc" =
      .parseError [.sumIs 15, .rectArea 48, .promptAge] "abc" :=
  ⟨by decide, claim_C4.2.1 "abc" (by decide)⟩
